import Mathlib

/-!
Shallow embedding of the request wrapper in `src/services/request/index.ts`:
`RequestUtils.generateCacheKey`, `CacheManager`, `DebounceManager`, and the
`Request` class (`request`, `sendRequest`, `clearCache`, `clearDebounce`,
`clearAllDebounce`), together with a small event-trace machine for the
timer/debounce behaviour.  JavaScript values are modelled by the inductive
`JSVal`; machine maps (`Map<string, ...>`) by association lists whose `set`
overwrites; promise settlement is made explicit (`SettleOut`); interceptor
functions are total functions into `TransformRes`, whose `.thrown` constructor
models a JavaScript `throw`.
-/

/-- JavaScript values, as far as the wrapper inspects them: `undefined`,
`null`, booleans, (integer) numbers, strings, arrays and plain objects.
Object fields are kept in insertion order, which is the order
`JSON.stringify` serialises them in. -/
inductive JSVal : Type where
  | undefined : JSVal
  | null : JSVal
  | bool : Bool → JSVal
  | num : Int → JSVal
  | str : String → JSVal
  | arr : List JSVal → JSVal
  | obj : List (String × JSVal) → JSVal
deriving Repr

/-- JavaScript truthiness for `JSVal` (`undefined`, `null`, `false`, `0` and
the empty string are falsy; arrays and objects are always truthy). -/
def JSVal.truthy : JSVal → Bool
  | .undefined => false
  | .null => false
  | .bool b => b
  | .num n => n != 0
  | .str s => s != ""
  | .arr _ => true
  | .obj _ => true

/-- The JavaScript `a || b` operator on modelled values. -/
def jsOr (a b : JSVal) : JSVal := if a.truthy then a else b

/-- The `=== undefined` test. -/
def JSVal.isUndefined : JSVal → Bool
  | .undefined => true
  | _ => false

/-- Escaping of `"` and `\` inside a JSON string literal, as
`JSON.stringify` does. -/
def jsonEscapeChar (c : Char) : String :=
  if c = '"' then "\\\"" else if c = '\\' then "\\\\" else String.singleton c

/-- Escape a list of characters for a JSON string literal. -/
def jsonEscapeList : List Char → String
  | [] => ""
  | c :: cs => jsonEscapeChar c ++ jsonEscapeList cs

/-- Escape a whole string for embedding in a JSON string literal. -/
def jsonEscape (s : String) : String :=
  jsonEscapeList s.data

/-- Join serialised elements with commas, as `JSON.stringify` does. -/
def commaJoin : List String → String
  | [] => ""
  | [s] => s
  | s :: rest => s ++ "," ++ commaJoin rest

/-- Model of `JSON.stringify` on `JSVal`: object fields are emitted in stored
(insertion) order, `undefined` fields are skipped, `undefined` array elements
become `null`, and a top-level `undefined` renders as the text `undefined`
(that is what a template literal shows for it). -/
def jsonStringify : JSVal → String
  | .undefined => "undefined"
  | .null => "null"
  | .bool true => "true"
  | .bool false => "false"
  | .num n => toString n
  | .str s => "\"" ++ jsonEscape s ++ "\""
  | .arr xs =>
      "[" ++ commaJoin (xs.attach.map fun v =>
        match v with
        | ⟨.undefined, _⟩ => "null"
        | ⟨x, _⟩ => jsonStringify x) ++ "]"
  | .obj fs =>
      "\x7b" ++ commaJoin ((fs.attach.filterMap fun f =>
        match f with
        | ⟨(_, .undefined), _⟩ => none
        | ⟨(k, x), _⟩ => some ("\"" ++ jsonEscape k ++ "\":" ++ jsonStringify x))) ++ "\x7d"
decreasing_by
  · have h := List.sizeOf_lt_of_mem ‹x ∈ xs›
    simp only [JSVal.arr.sizeOf_spec]
    omega
  · have h := List.sizeOf_lt_of_mem ‹(k, x) ∈ fs›
    simp only [Prod.mk.sizeOf_spec] at h
    simp only [JSVal.obj.sizeOf_spec]
    omega

/-- The per-call configuration accepted by `Request.request`
(`RequestConfig`).  The per-call interceptor record is carried separately
(see `Interceptors`), because `Request.sendRequest` always consults the
ORIGINAL config's interceptor set, never the transformed config's. -/
structure Config : Type where
  method : Option String := none
  url : Option String := none
  params : JSVal := .undefined
  data : JSVal := .undefined
  cache : Bool := false
  cacheKey : Option String := none
  debounce : Option Nat := none
deriving Repr

/-- Result of running a (possibly throwing) JavaScript function:
either a normal return or a thrown value. -/
inductive TransformRes (α : Type) : Type where
  | ret : α → TransformRes α
  | thrown : JSVal → TransformRes α

/-- The optional per-call interceptor set (`RequestInterceptors`). -/
structure Interceptors : Type where
  requestInterceptor : Option (Config → TransformRes Config) := none
  requestInterceptorCatch : Option (JSVal → TransformRes JSVal) := none
  responseInterceptor : Option (JSVal → TransformRes JSVal) := none
  responseInterceptorCatch : Option (JSVal → TransformRes JSVal) := none

namespace RequestUtils

/-- `RequestUtils.generateCacheKey`: the template literal
```method || 'GET'`:`url || ''`:JSON.stringify(params || {}):JSON.stringify(data || {})```.
`||` is JavaScript's or: an absent or empty-string method falls back to
`"GET"`, an absent url to `""`, and falsy params/data to the empty object. -/
def generateCacheKey (config : Config) : String :=
  (match config.method with
    | none => "GET"
    | some m => if m = "" then "GET" else m)
  ++ ":" ++ (match config.url with | none => "" | some u => u)
  ++ ":" ++ jsonStringify (jsOr config.params (.obj []))
  ++ ":" ++ jsonStringify (jsOr config.data (.obj []))

end RequestUtils

/-- The cache table (`CacheManager`'s private `Map<string, unknown>`),
modelled as an association list; `set` overwrites the key's entry. -/
abbrev Cache : Type := List (String × JSVal)

namespace CacheManager

/-- Lookup in the cache table (first binding wins; `set` keeps at most one
binding per key, so this is the `Map` lookup). -/
def lookup (key : String) : Cache → Option JSVal
  | [] => none
  | (k, v) :: rest => if k = key then some v else lookup key rest

/-- `CacheManager.get`: `Map.get`, `undefined` when absent. -/
def get (key : String) (c : Cache) : JSVal :=
  match lookup key c with
  | some v => v
  | none => .undefined

/-- `CacheManager.set`: overwrites the entry for `key` unconditionally.
(A JavaScript `Map.set` keeps the original insertion position of an
overwritten key; this model reinserts at the front instead — the two agree
on every lookup, and the wrapper never iterates the cache.) -/
def set (key : String) (value : JSVal) (c : Cache) : Cache :=
  (key, value) :: c.filter (fun p => p.1 ≠ key)

/-- `CacheManager.has`. -/
def has (key : String) (c : Cache) : Bool :=
  (lookup key c).isSome

/-- `CacheManager.delete`: removes the entry if present, no-op otherwise. -/
def delete (key : String) (c : Cache) : Cache :=
  c.filter (fun p => p.1 ≠ key)

/-- `CacheManager.clear`. -/
def clear (_c : Cache) : Cache := []

end CacheManager

/-- The debounce table (`DebounceManager`'s private
`Map<string, NodeJS.Timeout>`): key ↦ timer id.  Timer handles are numbered
by creation order (`Nat`). -/
abbrev TimerTable : Type := List (String × Nat)

namespace DebounceManager

/-- `DebounceManager.clear(key)`: `clearTimeout` the pending timer for `key`
(modelled by removal from the alive table) and delete its entry. -/
def clear (key : String) (m : TimerTable) : TimerTable :=
  m.filter (fun p => p.1 ≠ key)

/-- `DebounceManager.set(key, timer)`: first `clear(key)` — cancelling any
previously pending timer for the same key — then install the new timer. -/
def set (key : String) (timer : Nat) (m : TimerTable) : TimerTable :=
  (key, timer) :: clear key m

/-- `DebounceManager.clearAll`: `clearTimeout` every pending timer and empty
the table. -/
def clearAll (_m : TimerTable) : TimerTable := []

end DebounceManager

/-- How a call's promise settles. -/
inductive SettleOut : Type where
  | resolved : JSVal → SettleOut
  | rejected : JSVal → SettleOut
deriving Repr

/-- The transport boundary: what `this.instance.request(processedConfig)`
(axios, with the global NProgress interceptors already applied — on success
it yields `response.data`) does for a given processed config. -/
inductive TResult : Type where
  | success : JSVal → TResult
  | failure : JSVal → TResult

/-- Everything observable about one run of `Request.sendRequest`: how the
promise settled, the cache afterwards, and which collaborators ran. -/
structure CallTrace : Type where
  outcome : SettleOut
  cache : Cache
  transportInvoked : Bool
  reqInterceptorInvoked : Bool
  reqCatchInvoked : Bool
  respInterceptorInvoked : Bool
  respCatchInvoked : Bool

namespace Request

/-- The part of `Request.sendRequest` from the transport call on: the
`.then` branch applies the response interceptor (on a throw, invokes the
response-error catch interceptor — whose return value is ignored — and
rejects with the thrown error; if the catch interceptor itself throws, that
exception escapes the `.then` callback and lands in the `.catch` handler),
caches the processed response when `config.cache` is set, and resolves; the
`.catch` branch rejects with the catch interceptor's return value, with
what the catch interceptor throws, or with the original error when no catch
interceptor is present. -/
def transportPhase (transport : Config → TResult) (icpt : Interceptors)
    (config processedConfig : Config) (cacheKey : String) (cache : Cache)
    (reqInv : Bool) : CallTrace :=
  match transport processedConfig with
  | .success response =>
      match icpt.responseInterceptor with
      | some f =>
          match f response with
          | .ret processedResponse =>
              { outcome := .resolved processedResponse
                cache := if config.cache then
                    CacheManager.set cacheKey processedResponse cache
                  else cache
                transportInvoked := true
                reqInterceptorInvoked := reqInv
                reqCatchInvoked := false
                respInterceptorInvoked := true
                respCatchInvoked := false }
          | .thrown e =>
              match icpt.responseInterceptorCatch with
              | some g =>
                  match g e with
                  | .ret _ =>
                      -- the catch interceptor's return value is discarded;
                      -- `return reject(error)` rejects with the thrown error
                      { outcome := .rejected e, cache := cache
                        transportInvoked := true
                        reqInterceptorInvoked := reqInv
                        reqCatchInvoked := false
                        respInterceptorInvoked := true
                        respCatchInvoked := true }
                  | .thrown e2 =>
                      -- the throw escapes the `.then` callback, so the
                      -- promise chain's `.catch` handler runs on `e2`
                      match g e2 with
                      | .ret processedError =>
                          { outcome := .rejected processedError, cache := cache
                            transportInvoked := true
                            reqInterceptorInvoked := reqInv
                            reqCatchInvoked := false
                            respInterceptorInvoked := true
                            respCatchInvoked := true }
                      | .thrown e3 =>
                          { outcome := .rejected e3, cache := cache
                            transportInvoked := true
                            reqInterceptorInvoked := reqInv
                            reqCatchInvoked := false
                            respInterceptorInvoked := true
                            respCatchInvoked := true }
              | none =>
                  { outcome := .rejected e, cache := cache
                    transportInvoked := true
                    reqInterceptorInvoked := reqInv
                    reqCatchInvoked := false
                    respInterceptorInvoked := true
                    respCatchInvoked := false }
      | none =>
          { outcome := .resolved response
            cache := if config.cache then
                CacheManager.set cacheKey response cache
              else cache
            transportInvoked := true
            reqInterceptorInvoked := reqInv
            reqCatchInvoked := false
            respInterceptorInvoked := false
            respCatchInvoked := false }
  | .failure e =>
      match icpt.responseInterceptorCatch with
      | some g =>
          match g e with
          | .ret processedError =>
              { outcome := .rejected processedError, cache := cache
                transportInvoked := true
                reqInterceptorInvoked := reqInv
                reqCatchInvoked := false
                respInterceptorInvoked := false
                respCatchInvoked := true }
          | .thrown interceptorError =>
              { outcome := .rejected interceptorError, cache := cache
                transportInvoked := true
                reqInterceptorInvoked := reqInv
                reqCatchInvoked := false
                respInterceptorInvoked := false
                respCatchInvoked := true }
      | none =>
          { outcome := .rejected e, cache := cache
            transportInvoked := true
            reqInterceptorInvoked := reqInv
            reqCatchInvoked := false
            respInterceptorInvoked := false
            respCatchInvoked := false }

/-- `Request.sendRequest(config, cacheKey)`: apply the request interceptor
(on a throw, invoke the request-error catch interceptor if present — its
return value is ignored, and if it throws instead, the exception escapes
the promise executor and becomes the rejection — then reject with the
original error, never reaching the transport), then hand the processed
config to the transport phase. -/
def sendRequest (transport : Config → TResult) (icpt : Interceptors)
    (config : Config) (cacheKey : String) (cache : Cache) : CallTrace :=
  match icpt.requestInterceptor with
  | some f =>
      match f config with
      | .ret processedConfig =>
          transportPhase transport icpt config processedConfig cacheKey cache true
      | .thrown e =>
          match icpt.requestInterceptorCatch with
          | some g =>
              match g e with
              | .ret _ =>
                  { outcome := .rejected e, cache := cache
                    transportInvoked := false
                    reqInterceptorInvoked := true
                    reqCatchInvoked := true
                    respInterceptorInvoked := false
                    respCatchInvoked := false }
              | .thrown e2 =>
                  -- the catch interceptor's throw escapes the executor, so
                  -- the promise rejects with it instead
                  { outcome := .rejected e2, cache := cache
                    transportInvoked := false
                    reqInterceptorInvoked := true
                    reqCatchInvoked := true
                    respInterceptorInvoked := false
                    respCatchInvoked := false }
          | none =>
              { outcome := .rejected e, cache := cache
                transportInvoked := false
                reqInterceptorInvoked := true
                reqCatchInvoked := false
                respInterceptorInvoked := false
                respCatchInvoked := false }
  | none => transportPhase transport icpt config config cacheKey cache false

/-- The effective key of a call:
`config.cacheKey || RequestUtils.generateCacheKey(config)` (an explicit but
empty-string cacheKey is falsy and also falls back to the generated key). -/
def effKey (config : Config) : String :=
  match config.cacheKey with
  | some k => if k = "" then RequestUtils.generateCacheKey config else k
  | none => RequestUtils.generateCacheKey config

/-- Whether `config.debounce` is truthy (`if (config.debounce)`):
present and non-zero. -/
def debTruthy : Option Nat → Bool
  | none => false
  | some d => d ≠ 0

/-- What one call to `Request.request` does synchronously: either the
promise is settled now (cache hit, or an immediate dispatch through
`sendRequest`), or the dispatch is deferred behind a debounce timer. -/
inductive RequestStep : Type where
  | settledNow : CallTrace → RequestStep
  | deferred : (key : String) → (delay : Nat) → RequestStep

/-- `Request.request(config)`: compute the effective key; if `config.cache`
is set, the cache has the key, and the cached value is not `undefined`,
resolve with it at once; otherwise, if `config.debounce` is truthy, defer
the dispatch behind a debounce timer keyed by the effective key; otherwise
dispatch through `sendRequest` now. -/
def request (transport : Config → TResult) (icpt : Interceptors)
    (config : Config) (cache : Cache) : RequestStep :=
  let cacheKey := effKey config
  match CacheManager.lookup cacheKey cache with
  | some cachedValue =>
      if config.cache && !cachedValue.isUndefined then
        .settledNow
          { outcome := .resolved cachedValue, cache := cache
            transportInvoked := false
            reqInterceptorInvoked := false, reqCatchInvoked := false
            respInterceptorInvoked := false, respCatchInvoked := false }
      else if debTruthy config.debounce then
        .deferred cacheKey (config.debounce.getD 0)
      else .settledNow (sendRequest transport icpt config cacheKey cache)
  | none =>
      if debTruthy config.debounce then
        .deferred cacheKey (config.debounce.getD 0)
      else .settledNow (sendRequest transport icpt config cacheKey cache)

/-- `Request.clearCache(key?)`: delete one entry when a key is given, clear
the whole cache otherwise. -/
def clearCache (key : Option String) (c : Cache) : Cache :=
  match key with
  | some k => CacheManager.delete k c
  | none => CacheManager.clear c

/-- `Request.clearDebounce(key)`. -/
def clearDebounce (key : String) (m : TimerTable) : TimerTable :=
  DebounceManager.clear key m

/-- `Request.clearAllDebounce`. -/
def clearAllDebounce (m : TimerTable) : TimerTable :=
  DebounceManager.clearAll m

end Request

/-- A dispatch parked behind a debounce timer: the `setTimeout` callback
closes over the call's config, interceptor set and effective key, and will
settle that call's promise (`cid`) when the timer (`tid`) fires. -/
structure PendingCall : Type where
  tid : Nat
  cid : Nat
  icpt : Interceptors
  config : Config
  key : String

/-- The process-wide state threaded through a trace of the wrapper: the
cache and timer tables, the parked dispatch closures, which timers have
already fired, a fresh-timer counter, and — for stating temporal
properties — which call promises have settled (and how) and which calls'
`sendRequest` dispatch has actually run. -/
structure SysState : Type where
  cache : Cache
  timers : TimerTable
  pending : List PendingCall
  fired : List Nat
  nextTid : Nat
  settled : List (Nat × SettleOut)
  dispatched : List Nat

/-- The state at process start: empty tables, no calls yet. -/
def initState : SysState :=
  { cache := [], timers := [], pending := [], fired := [], nextTid := 0
    settled := [], dispatched := [] }

/-- The events a trace is made of: a caller issuing `Request.request`
(with a fresh promise identified by `cid`), a scheduled timeout elapsing,
and the explicit clear operations. -/
inductive Event : Type where
  | issue : Nat → Config → Interceptors → Event
  | fire : Nat → Event
  | clearDeb : String → Event
  | clearAllDeb : Event
  | clearCacheEv : Option String → Event

/-- Whether an event issues a call under promise id `c`. -/
def Event.issuesCid (c : Nat) : Event → Bool
  | .issue c' _ _ => c' == c
  | _ => false

/-- A timer can still fire iff it was never `clearTimeout`-ed — in this
model, iff its id is still a value of the timer table (the only removals
are the clears, each of which also cancels) — and has not fired yet
(a fired timer's map entry lingers; cancelling it later is a no-op). -/
def timerAlive (tid : Nat) (s : SysState) : Bool :=
  s.timers.any (fun p => p.2 == tid) && !(s.fired.contains tid)

/-- One step of the machine.  `issue` performs `Request.request`
synchronously: an immediate settlement records the outcome (and, when the
dispatch actually ran — recognisable by the transport or the request
interceptor having been invoked — the dispatch); the debounce path installs
a fresh timer via `DebounceManager.set` and parks the dispatch closure.
`fire` runs a still-alive timer's parked dispatch through
`Request.sendRequest` and settles its promise; firing a cancelled or
already-fired timer does nothing.  The remaining events are the wrapper's
clear operations. -/
def runEvent (transport : Config → TResult) (s : SysState) : Event → SysState
  | .issue cid config icpt =>
      match Request.request transport icpt config s.cache with
      | .settledNow ct =>
          { s with
              cache := ct.cache
              settled := (cid, ct.outcome) :: s.settled
              dispatched :=
                if ct.transportInvoked || ct.reqInterceptorInvoked then
                  cid :: s.dispatched
                else s.dispatched }
      | .deferred key _delay =>
          { s with
              timers := DebounceManager.set key s.nextTid s.timers
              pending := ⟨s.nextTid, cid, icpt, config, key⟩ :: s.pending
              nextTid := s.nextTid + 1 }
  | .fire tid =>
      if timerAlive tid s then
        match s.pending.find? (fun q => q.tid == tid) with
        | some q =>
            let ct := Request.sendRequest transport q.icpt q.config q.key s.cache
            { s with
                cache := ct.cache
                fired := tid :: s.fired
                settled := (q.cid, ct.outcome) :: s.settled
                dispatched := q.cid :: s.dispatched }
        | none => s
      else s
  | .clearDeb key => { s with timers := Request.clearDebounce key s.timers }
  | .clearAllDeb => { s with timers := Request.clearAllDebounce s.timers }
  | .clearCacheEv key => { s with cache := Request.clearCache key s.cache }

/-- Run a whole trace of events. -/
def run (transport : Config → TResult) (s : SysState) (es : List Event) : SysState :=
  es.foldl (runEvent transport) s

/-- The config the transport will receive, when the request-transform phase
of `Request.sendRequest` passes: the original config if no request
interceptor is installed, the interceptor's returned config if it returns,
and `none` if it throws (in which case the transport is never reached). -/
def Request.processedConfig? (icpt : Interceptors) (config : Config) : Option Config :=
  match icpt.requestInterceptor with
  | none => some config
  | some f =>
      match f config with
      | .ret c => some c
      | .thrown _ => none

/-- All timer ids known to the state are below the fresh-timer counter, so
a newly allocated timer handle is distinct from every existing one. -/
def TidBound (s : SysState) : Prop :=
  (∀ p ∈ s.timers, p.2 < s.nextTid) ∧
  (∀ q ∈ s.pending, q.tid < s.nextTid) ∧
  (∀ t ∈ s.fired, t < s.nextTid)

/-- Call `c1` has been superseded: its debounce timer `t1` was cancelled
(it is absent from the timer table and, timer ids being fresh, can never
return), `c1`'s only parked dispatch hangs off `t1`, and `c1` has neither
dispatched nor settled.  This is the inductive invariant behind the
last-call-wins and never-settles properties. -/
structure Superseded (c1 t1 : Nat) (s : SysState) : Prop where
  tidBound : TidBound s
  t1lt : t1 < s.nextTid
  t1dead : ∀ k, (k, t1) ∉ s.timers
  pendOnly : ∀ q ∈ s.pending, q.cid = c1 → q.tid = t1
  notDispatched : c1 ∉ s.dispatched
  notSettled : ∀ o, (c1, o) ∉ s.settled

/-- Reading a key right after writing it returns the written value. -/
theorem lookup_set_self (k : String) (v : JSVal) (c : Cache) :
    CacheManager.lookup k (CacheManager.set k v c) = some v := by
  simp [CacheManager.set, CacheManager.lookup]

/-- Removing a key from the cache affects that key's lookup only. -/
theorem lookup_filter_ne (k k' : String) (c : Cache) :
    CacheManager.lookup k' (c.filter (fun p => p.1 ≠ k)) =
      if k' = k then none else CacheManager.lookup k' c := by
  induction c with
  | nil => simp [CacheManager.lookup]
  | cons p rest ih =>
      by_cases h1 : p.1 = k <;> by_cases h2 : p.1 = k' <;>
        simp_all [CacheManager.lookup, List.filter]

/-- A call with caching off and a truthy debounce always takes the
deferred (debounce) path. -/
theorem request_debounce_path (transport : Config → TResult) (icpt : Interceptors)
    (config : Config) (cache : Cache)
    (hc : config.cache = false) (hd : Request.debTruthy config.debounce = true) :
    Request.request transport icpt config cache =
      .deferred (Request.effKey config) (config.debounce.getD 0) := by
  cases h : CacheManager.lookup (Request.effKey config) cache <;>
    simp [Request.request, h, hc, hd]

/-- C6: `RequestUtils.generateCacheKey` is a pure deterministic function of
method, URL, params and body: configs agreeing on those four fields get
identical keys (all other config fields are ignored), and an absent method
behaves as `"GET"`, an absent URL as `""`, and absent params/body each as
the empty object. -/
theorem generateCacheKey_deterministic_and_defaults :
    (∀ c1 c2 : Config, c1.method = c2.method → c1.url = c2.url →
       c1.params = c2.params → c1.data = c2.data →
       RequestUtils.generateCacheKey c1 = RequestUtils.generateCacheKey c2) ∧
    (∀ c : Config, c.method = none →
       RequestUtils.generateCacheKey c =
         RequestUtils.generateCacheKey { c with method := some "GET" }) ∧
    (∀ c : Config, c.url = none →
       RequestUtils.generateCacheKey c =
         RequestUtils.generateCacheKey { c with url := some "" }) ∧
    (∀ c : Config, c.params = .undefined →
       RequestUtils.generateCacheKey c =
         RequestUtils.generateCacheKey { c with params := .obj [] }) ∧
    (∀ c : Config, c.data = .undefined →
       RequestUtils.generateCacheKey c =
         RequestUtils.generateCacheKey { c with data := .obj [] }) := by
  refine ⟨?_, ?_, ?_, ?_, ?_⟩
  · intro c1 c2 h1 h2 h3 h4
    simp [RequestUtils.generateCacheKey, h1, h2, h3, h4]
  · intro c h; simp [RequestUtils.generateCacheKey, h]
  · intro c h; simp [RequestUtils.generateCacheKey, h]
  · intro c h; simp [RequestUtils.generateCacheKey, h, jsOr, JSVal.truthy]
  · intro c h; simp [RequestUtils.generateCacheKey, h, jsOr, JSVal.truthy]

/-- Witness for C6: two configs differing only in cache/debounce flags get
the same key, and the empty config keys like an explicit GET. -/
theorem generateCacheKey_deterministic_and_defaults_witness :
    (RequestUtils.generateCacheKey { method := some "POST", cache := true } =
       RequestUtils.generateCacheKey { method := some "POST", debounce := some 5 }) ∧
    (RequestUtils.generateCacheKey {} =
       RequestUtils.generateCacheKey { method := some "GET" }) :=
  ⟨generateCacheKey_deterministic_and_defaults.1 _ _ rfl rfl rfl rfl,
   generateCacheKey_deterministic_and_defaults.2.1 {} rfl⟩

/-- C1 (amended): when `config.cache` is set and the cache holds a
non-`undefined` value for the effective key, `Request.request` resolves
immediately with exactly that value — the cache is untouched and neither
the transport nor any per-call interceptor runs; and the value found is
the one most recently stored (set-then-lookup identity). -/
theorem request_cache_hit (transport : Config → TResult) (icpt : Interceptors)
    (config : Config) (cache : Cache) (v : JSVal)
    (hc : config.cache = true)
    (hv : CacheManager.lookup (Request.effKey config) cache = some v)
    (hu : v.isUndefined = false) :
    Request.request transport icpt config cache = .settledNow
      { outcome := .resolved v, cache := cache, transportInvoked := false
        reqInterceptorInvoked := false, reqCatchInvoked := false
        respInterceptorInvoked := false, respCatchInvoked := false } ∧
    (∀ (k : String) (w : JSVal) (c : Cache),
       CacheManager.lookup k (CacheManager.set k w c) = some w) := by
  refine ⟨?_, fun k w c => lookup_set_self k w c⟩
  simp [Request.request, hv, hc, hu]

/-- Witness for C1 (amended) at a concrete cached call. -/
theorem request_cache_hit_witness :
    Request.request (fun _ => .failure .null) {}
        { cache := true, cacheKey := some "k" } [("k", .str "v")] = .settledNow
      { outcome := .resolved (.str "v"), cache := [("k", .str "v")], transportInvoked := false
        reqInterceptorInvoked := false, reqCatchInvoked := false
        respInterceptorInvoked := false, respCatchInvoked := false } :=
  (request_cache_hit (fun _ => .failure .null) {}
    { cache := true, cacheKey := some "k" } [("k", .str "v")] (.str "v")
    rfl rfl rfl).1

/-- Counterexample to C1 as stated: with `undefined` stored under `"k"`,
`CacheManager.has` reports an entry, yet the cache-enabled call does not
resolve with the stored value — it dispatches, invokes the transport, and
resolves with the fresh transport response instead. -/
theorem request_cache_hit_cex :
    CacheManager.has "k" [("k", JSVal.undefined)] = true ∧
    CacheManager.lookup "k" [("k", JSVal.undefined)] = some .undefined ∧
    Request.request (fun _ => .success (.str "fresh")) {}
        { cache := true, cacheKey := some "k" } [("k", .undefined)] =
      .settledNow (Request.sendRequest (fun _ => .success (.str "fresh")) {}
        { cache := true, cacheKey := some "k" } "k" [("k", .undefined)]) ∧
    (Request.sendRequest (fun _ => .success (.str "fresh")) {}
        { cache := true, cacheKey := some "k" } "k" [("k", .undefined)]).transportInvoked = true ∧
    (Request.sendRequest (fun _ => .success (.str "fresh")) {}
        { cache := true, cacheKey := some "k" } "k" [("k", .undefined)]).outcome =
      .resolved (.str "fresh") := by
  refine ⟨rfl, rfl, rfl, rfl, rfl⟩

/-- C10: when the value stored under the effective key is `undefined`,
`CacheManager.has` still reports an entry, but the cache-enabled call does
not resolve from the cache: it falls through to the debounce path or to an
immediate `sendRequest` dispatch, exactly as on a cache miss. -/
theorem request_cached_undefined_falls_through (transport : Config → TResult)
    (icpt : Interceptors) (config : Config) (cache : Cache)
    (hc : config.cache = true)
    (hv : CacheManager.lookup (Request.effKey config) cache = some .undefined) :
    CacheManager.has (Request.effKey config) cache = true ∧
    Request.request transport icpt config cache =
      (if Request.debTruthy config.debounce then
         .deferred (Request.effKey config) (config.debounce.getD 0)
       else .settledNow
         (Request.sendRequest transport icpt config (Request.effKey config) cache)) := by
  constructor
  · simp [CacheManager.has, hv]
  · simp [Request.request, hv, JSVal.isUndefined]

/-- Witness for C10 at a concrete call with a cached `undefined`. -/
theorem request_cached_undefined_falls_through_witness :
    CacheManager.has "k" [("k", JSVal.undefined)] = true ∧
    Request.request (fun _ => .success .null) {}
        { cache := true, cacheKey := some "k" } [("k", .undefined)] =
      (if Request.debTruthy (none : Option Nat) then
         .deferred "k" 0
       else .settledNow (Request.sendRequest (fun _ => .success .null) {}
         { cache := true, cacheKey := some "k" } "k" [("k", .undefined)])) :=
  request_cached_undefined_falls_through (fun _ => .success .null) {}
    { cache := true, cacheKey := some "k" } [("k", .undefined)] rfl rfl

/-- When the request-transform phase passes, `sendRequest` equals the
transport phase run on the processed config. -/
theorem sendRequest_eq_transportPhase (transport : Config → TResult)
    (icpt : Interceptors) (config : Config) (key : String) (cache : Cache)
    (c' : Config) (hpass : Request.processedConfig? icpt config = some c') :
    ∃ b, Request.sendRequest transport icpt config key cache =
      Request.transportPhase transport icpt config c' key cache b := by
  cases h : icpt.requestInterceptor with
  | none =>
      simp only [Request.processedConfig?, h, Option.some.injEq] at hpass
      subst hpass
      exact ⟨false, by simp [Request.sendRequest, h]⟩
  | some f =>
      cases hf : f config with
      | ret c2 =>
          simp only [Request.processedConfig?, h, hf, Option.some.injEq] at hpass
          subst hpass
          exact ⟨true, by simp [Request.sendRequest, h, hf]⟩
      | thrown e =>
          simp only [Request.processedConfig?, h, hf] at hpass
          exact Option.noConfusion hpass

/-- C3 (amended): when the transport succeeds, the response-transform
interceptor throws, and a response-error-handler interceptor is present and
returns a value, the handler IS invoked but its return value is discarded:
the call rejects with the error thrown by the transform, and the cache is
untouched. -/
theorem responseTransform_throw_rejects_thrown_error (transport : Config → TResult)
    (icpt : Interceptors) (config : Config) (key : String) (cache : Cache)
    (c' : Config) (v e r : JSVal) (f g : JSVal → TransformRes JSVal)
    (hpass : Request.processedConfig? icpt config = some c')
    (ht : transport c' = .success v)
    (hf : icpt.responseInterceptor = some f)
    (hfe : f v = .thrown e)
    (hg : icpt.responseInterceptorCatch = some g)
    (hge : g e = .ret r) :
    (Request.sendRequest transport icpt config key cache).outcome = .rejected e ∧
    (Request.sendRequest transport icpt config key cache).respCatchInvoked = true ∧
    (Request.sendRequest transport icpt config key cache).cache = cache := by
  obtain ⟨b, hb⟩ := sendRequest_eq_transportPhase transport icpt config key cache c' hpass
  rw [hb]
  simp [Request.transportPhase, ht, hf, hfe, hg, hge]

/-- Witness for C3 (amended): transform throws `"boom"`, handler returns
`"custom"`, call rejects with `"boom"`. -/
theorem responseTransform_throw_rejects_thrown_error_witness :
    (Request.sendRequest (fun _ => .success (.str "resp"))
        { responseInterceptor := some fun _ => TransformRes.thrown (.str "boom")
          responseInterceptorCatch := some fun _ => TransformRes.ret (.str "custom") }
        {} "k" []).outcome = .rejected (.str "boom") ∧
    (Request.sendRequest (fun _ => .success (.str "resp"))
        { responseInterceptor := some fun _ => TransformRes.thrown (.str "boom")
          responseInterceptorCatch := some fun _ => TransformRes.ret (.str "custom") }
        {} "k" []).respCatchInvoked = true ∧
    (Request.sendRequest (fun _ => .success (.str "resp"))
        { responseInterceptor := some fun _ => TransformRes.thrown (.str "boom")
          responseInterceptorCatch := some fun _ => TransformRes.ret (.str "custom") }
        {} "k" []).cache = [] :=
  responseTransform_throw_rejects_thrown_error (fun _ => .success (.str "resp"))
    { responseInterceptor := some fun _ => TransformRes.thrown (.str "boom")
      responseInterceptorCatch := some fun _ => TransformRes.ret (.str "custom") }
    {} "k" [] {} (.str "resp") (.str "boom") (.str "custom") _ _ rfl rfl rfl rfl rfl rfl

/-- Counterexample to C3 as stated: response transform throws `"boom"`, the
handler returns the custom value `"custom"`, yet the call rejects with the
thrown `"boom"` — not with the handler's custom value. -/
theorem responseTransform_handler_return_not_used_cex :
    (Request.sendRequest (fun _ => .success (.str "resp"))
        { responseInterceptor := some fun _ => TransformRes.thrown (.str "boom")
          responseInterceptorCatch := some fun _ => TransformRes.ret (.str "custom") }
        {} "k" []).outcome = .rejected (.str "boom") ∧
    SettleOut.rejected (.str "boom") ≠ SettleOut.rejected (.str "custom") := by
  refine ⟨rfl, ?_⟩
  intro h
  simp at h

/-- C4: when the transport rejects with `e`: a present response-error
handler's return value becomes the rejection reason verbatim; a throwing
handler's thrown value supersedes `e` as the rejection reason; with no
handler the call rejects with `e` itself. -/
theorem transport_failure_error_routing (transport : Config → TResult)
    (icpt : Interceptors) (config : Config) (key : String) (cache : Cache)
    (c' : Config) (e : JSVal)
    (hpass : Request.processedConfig? icpt config = some c')
    (ht : transport c' = .failure e) :
    (∀ g : JSVal → TransformRes JSVal, icpt.responseInterceptorCatch = some g →
       (∀ p, g e = .ret p →
          (Request.sendRequest transport icpt config key cache).outcome = .rejected p) ∧
       (∀ e2, g e = .thrown e2 →
          (Request.sendRequest transport icpt config key cache).outcome = .rejected e2)) ∧
    (icpt.responseInterceptorCatch = none →
       (Request.sendRequest transport icpt config key cache).outcome = .rejected e) := by
  obtain ⟨b, hb⟩ := sendRequest_eq_transportPhase transport icpt config key cache c' hpass
  rw [hb]
  constructor
  · intro g hg
    constructor
    · intro p hp; simp [Request.transportPhase, ht, hg, hp]
    · intro e2 he2; simp [Request.transportPhase, ht, hg, he2]
  · intro hg; simp [Request.transportPhase, ht, hg]

/-- Witness for C4: handler returning `42` makes the call reject with `42`
(not error-shaped); a throwing handler's error supersedes; no handler
propagates the transport error. -/
theorem transport_failure_error_routing_witness :
    (Request.sendRequest (fun _ => .failure (.str "neterr"))
        { responseInterceptorCatch := some fun _ => TransformRes.ret (.num 42) }
        {} "k" []).outcome = .rejected (.num 42) ∧
    (Request.sendRequest (fun _ => .failure (.str "neterr"))
        { responseInterceptorCatch := some fun _ => TransformRes.thrown (.str "handler-err") }
        {} "k" []).outcome = .rejected (.str "handler-err") ∧
    (Request.sendRequest (fun _ => .failure (.str "neterr")) {} {} "k" []).outcome =
      .rejected (.str "neterr") :=
  ⟨((transport_failure_error_routing (fun _ => .failure (.str "neterr"))
      { responseInterceptorCatch := some fun _ => TransformRes.ret (.num 42) }
      {} "k" [] {} (.str "neterr") rfl rfl).1 _ rfl).1 _ rfl,
   ((transport_failure_error_routing (fun _ => .failure (.str "neterr"))
      { responseInterceptorCatch := some fun _ => TransformRes.thrown (.str "handler-err") }
      {} "k" [] {} (.str "neterr") rfl rfl).1 _ rfl).2 _ rfl,
   (transport_failure_error_routing (fun _ => .failure (.str "neterr"))
      {} {} "k" [] {} (.str "neterr") rfl rfl).2 rfl⟩

/-- C5: when the request-transform interceptor throws `e` and the
request-error handler is present and returns normally, the handler is
invoked, its return value ignored, the call rejects with the original `e`,
the transport is not invoked and the cache is untouched; with no handler
the rejection is likewise the original `e` without the transport. -/
theorem requestTransform_throw_rejects_original (transport : Config → TResult)
    (icpt : Interceptors) (config : Config) (key : String) (cache : Cache)
    (f : Config → TransformRes Config) (e : JSVal)
    (hf : icpt.requestInterceptor = some f)
    (he : f config = .thrown e) :
    (∀ (g : JSVal → TransformRes JSVal) (r : JSVal),
       icpt.requestInterceptorCatch = some g → g e = .ret r →
       Request.sendRequest transport icpt config key cache =
         { outcome := .rejected e, cache := cache, transportInvoked := false
           reqInterceptorInvoked := true, reqCatchInvoked := true
           respInterceptorInvoked := false, respCatchInvoked := false }) ∧
    (icpt.requestInterceptorCatch = none →
       Request.sendRequest transport icpt config key cache =
         { outcome := .rejected e, cache := cache, transportInvoked := false
           reqInterceptorInvoked := true, reqCatchInvoked := false
           respInterceptorInvoked := false, respCatchInvoked := false }) := by
  constructor
  · intro g r hg hr
    simp [Request.sendRequest, hf, he, hg, hr]
  · intro hg
    simp [Request.sendRequest, hf, he, hg]

/-- Witness for C5: transform throws `"reqfail"`, handler returns
`"handled"`, call rejects with `"reqfail"` and the transport never runs. -/
theorem requestTransform_throw_rejects_original_witness :
    Request.sendRequest (fun _ => .success .null)
        { requestInterceptor := some fun _ => TransformRes.thrown (.str "reqfail")
          requestInterceptorCatch := some fun _ => TransformRes.ret (.str "handled") }
        {} "k" [] =
      { outcome := .rejected (.str "reqfail"), cache := [], transportInvoked := false
        reqInterceptorInvoked := true, reqCatchInvoked := true
        respInterceptorInvoked := false, respCatchInvoked := false } :=
  (requestTransform_throw_rejects_original (fun _ => .success .null)
    { requestInterceptor := some fun _ => TransformRes.thrown (.str "reqfail")
      requestInterceptorCatch := some fun _ => TransformRes.ret (.str "handled") }
    {} "k" [] _ (.str "reqfail") rfl rfl).1 _ (.str "handled") rfl rfl

/-- The cache after `sendRequest` is determined by the outcome: untouched
on rejection, written under the key (when caching is on) with exactly the
resolved value. -/
theorem sendRequest_outcome_cache (transport : Config → TResult)
    (icpt : Interceptors) (config : Config) (key : String) (cache : Cache) :
    (Request.sendRequest transport icpt config key cache).cache =
      (match (Request.sendRequest transport icpt config key cache).outcome with
       | .resolved v => if config.cache then CacheManager.set key v cache else cache
       | .rejected _ => cache) := by
  unfold Request.sendRequest Request.transportPhase
  repeat' (split <;> try rfl)

/-- C9: every rejecting path of `sendRequest` — request-transform error,
transport failure, response-transform error — leaves the cache unchanged;
a cache entry is written only on the resolving path (and only when
`config.cache` is on), under the effective key, with the final processed
response. -/
theorem sendRequest_cache_discipline (transport : Config → TResult)
    (icpt : Interceptors) (config : Config) (key : String) (cache : Cache) :
    (∀ e, (Request.sendRequest transport icpt config key cache).outcome = .rejected e →
       (Request.sendRequest transport icpt config key cache).cache = cache) ∧
    (∀ v, (Request.sendRequest transport icpt config key cache).outcome = .resolved v →
       (Request.sendRequest transport icpt config key cache).cache =
         (if config.cache then CacheManager.set key v cache else cache)) := by
  have h := sendRequest_outcome_cache transport icpt config key cache
  constructor
  · intro e he; rw [he] at h; exact h
  · intro v hv; rw [hv] at h; exact h

/-- Witness for C9: a failing transport leaves a non-empty cache intact;
a successful cached call writes exactly the processed response. -/
theorem sendRequest_cache_discipline_witness :
    (Request.sendRequest (fun _ => .failure (.str "err")) {}
        { cache := true } "k" [("a", .num 1)]).outcome = .rejected (.str "err") ∧
    (Request.sendRequest (fun _ => .failure (.str "err")) {}
        { cache := true } "k" [("a", .num 1)]).cache = [("a", .num 1)] ∧
    (Request.sendRequest (fun _ => .success (.str "ok")) {}
        { cache := true } "k" []).outcome = .resolved (.str "ok") ∧
    (Request.sendRequest (fun _ => .success (.str "ok")) {}
        { cache := true } "k" []).cache = CacheManager.set "k" (.str "ok") [] :=
  ⟨rfl,
   (sendRequest_cache_discipline (fun _ => .failure (.str "err")) {}
     { cache := true } "k" [("a", .num 1)]).1 (.str "err") rfl,
   rfl,
   (sendRequest_cache_discipline (fun _ => .success (.str "ok")) {}
     { cache := true } "k" []).2 (.str "ok") rfl⟩

/-- The initial state has no timers, so the freshness bound holds vacuously. -/
theorem tidBound_init : TidBound initState := by
  refine ⟨?_, ?_, ?_⟩ <;> intro x hx <;> simp [initState] at hx

/-- One machine step preserves the supersession invariant, provided the step
does not issue a new call under the superseded promise id: a cancelled timer
never re-enters the table (fresh ids are larger), so the superseded call can
never dispatch or settle. -/
theorem superseded_step (transport : Config → TResult) (c1 t1 : Nat) (s : SysState)
    (e : Event) (h : Superseded c1 t1 s) (he : e.issuesCid c1 = false) :
    Superseded c1 t1 (runEvent transport s e) := by
  obtain ⟨⟨hbt, hbp, hbf⟩, hlt, hdead, hpend, hdisp, hset⟩ := h
  cases e with
  | issue cid config icpt =>
      have hcid : cid ≠ c1 := by simpa [Event.issuesCid] using he
      cases hr : Request.request transport icpt config s.cache with
      | settledNow ct =>
          have hrun : runEvent transport s (.issue cid config icpt) =
              { s with cache := ct.cache
                       settled := (cid, ct.outcome) :: s.settled
                       dispatched :=
                         if ct.transportInvoked || ct.reqInterceptorInvoked then
                           cid :: s.dispatched
                         else s.dispatched } := by
            simp [runEvent, hr]
          rw [hrun]
          refine ⟨⟨hbt, hbp, hbf⟩, hlt, hdead, hpend, ?_, ?_⟩
          · intro hmem
            split at hmem
            · rcases List.mem_cons.mp hmem with h1 | h1
              · exact hcid h1.symm
              · exact hdisp h1
            · exact hdisp hmem
          · intro o hmem
            rcases List.mem_cons.mp hmem with h1 | h1
            · exact hcid (congrArg Prod.fst h1).symm
            · exact hset o h1
      | deferred key delay =>
          have hrun : runEvent transport s (.issue cid config icpt) =
              { s with timers := DebounceManager.set key s.nextTid s.timers
                       pending := ⟨s.nextTid, cid, icpt, config, key⟩ :: s.pending
                       nextTid := s.nextTid + 1 } := by
            simp [runEvent, hr]
          rw [hrun]
          refine ⟨⟨?_, ?_, ?_⟩, ?_, ?_, ?_, hdisp, hset⟩
          · intro p hp
            simp only [DebounceManager.set, DebounceManager.clear] at hp
            rcases List.mem_cons.mp hp with h1 | h1
            · simp [h1]
            · exact Nat.lt_succ_of_lt (hbt p (List.mem_of_mem_filter h1))
          · intro q hq
            rcases List.mem_cons.mp hq with h1 | h1
            · simp [h1]
            · exact Nat.lt_succ_of_lt (hbp q h1)
          · intro t ht
            exact Nat.lt_succ_of_lt (hbf t ht)
          · exact Nat.lt_succ_of_lt hlt
          · intro k hk
            simp only [DebounceManager.set, DebounceManager.clear] at hk
            rcases List.mem_cons.mp hk with h1 | h1
            · have : t1 = s.nextTid := congrArg Prod.snd h1
              omega
            · exact hdead k (List.mem_of_mem_filter h1)
          · intro q hq hq1
            rcases List.mem_cons.mp hq with h1 | h1
            · rw [h1] at hq1
              exact absurd hq1 hcid
            · exact hpend q h1 hq1
  | fire tid =>
      cases hA : timerAlive tid s with
      | false =>
          have hrun : runEvent transport s (.fire tid) = s := by
            simp [runEvent, hA]
          rw [hrun]
          exact ⟨⟨hbt, hbp, hbf⟩, hlt, hdead, hpend, hdisp, hset⟩
      | true =>
          have hAmem : ∃ k, (k, tid) ∈ s.timers := by
            have h1 := (Bool.and_eq_true _ _).mp hA |>.1
            rcases List.any_eq_true.mp h1 with ⟨⟨a, b⟩, hp, hp2⟩
            have hb : b = tid := by simpa using hp2
            exact ⟨a, hb ▸ hp⟩
          cases hq : s.pending.find? (fun q => q.tid == tid) with
          | none =>
              have hrun : runEvent transport s (.fire tid) = s := by
                simp [runEvent, hA, hq]
              rw [hrun]
              exact ⟨⟨hbt, hbp, hbf⟩, hlt, hdead, hpend, hdisp, hset⟩
          | some q =>
              have hqtid : q.tid = tid := by
                have := List.find?_some hq
                simpa using this
              have hqmem : q ∈ s.pending := List.mem_of_find?_eq_some hq
              obtain ⟨k0, hk0⟩ := hAmem
              have htne : tid ≠ t1 := by
                intro hcontra
                exact hdead k0 (hcontra ▸ hk0)
              have hqcid : q.cid ≠ c1 := by
                intro hcc
                exact htne (hqtid ▸ hpend q hqmem hcc)
              have hrun : runEvent transport s (.fire tid) =
                  { s with
                      cache := (Request.sendRequest transport q.icpt q.config q.key s.cache).cache
                      fired := tid :: s.fired
                      settled := (q.cid, (Request.sendRequest transport q.icpt q.config q.key s.cache).outcome) :: s.settled
                      dispatched := q.cid :: s.dispatched } := by
                simp [runEvent, hA, hq]
              rw [hrun]
              refine ⟨⟨hbt, hbp, ?_⟩, hlt, hdead, hpend, ?_, ?_⟩
              · intro t ht
                rcases List.mem_cons.mp ht with h1 | h1
                · exact h1 ▸ hbt (k0, tid) hk0
                · exact hbf t h1
              · intro hmem
                rcases List.mem_cons.mp hmem with h1 | h1
                · exact hqcid h1.symm
                · exact hdisp h1
              · intro o hmem
                rcases List.mem_cons.mp hmem with h1 | h1
                · exact hqcid (congrArg Prod.fst h1).symm
                · exact hset o h1
  | clearDeb key =>
      have hrun : runEvent transport s (.clearDeb key) =
          { s with timers := s.timers.filter (fun p => p.1 ≠ key) } := by
        simp [runEvent, Request.clearDebounce, DebounceManager.clear]
      rw [hrun]
      refine ⟨⟨?_, hbp, hbf⟩, hlt, ?_, hpend, hdisp, hset⟩
      · intro p hp; exact hbt p (List.mem_of_mem_filter hp)
      · intro k hk; exact hdead k (List.mem_of_mem_filter hk)
  | clearAllDeb =>
      have hrun : runEvent transport s .clearAllDeb = { s with timers := [] } := by
        simp [runEvent, Request.clearAllDebounce, DebounceManager.clearAll]
      rw [hrun]
      refine ⟨⟨?_, hbp, hbf⟩, hlt, ?_, hpend, hdisp, hset⟩
      · intro p hp; simp at hp
      · intro k hk; simp at hk
  | clearCacheEv key =>
      have hrun : runEvent transport s (.clearCacheEv key) =
          { s with cache := Request.clearCache key s.cache } := by
        simp [runEvent]
      rw [hrun]
      exact ⟨⟨hbt, hbp, hbf⟩, hlt, hdead, hpend, hdisp, hset⟩

/-- The supersession invariant is preserved along any trace that does not
reuse the superseded promise id. -/
theorem superseded_run (transport : Config → TResult) (c1 t1 : Nat) (s : SysState)
    (es : List Event) (h : Superseded c1 t1 s)
    (hes : es.all (fun e => !e.issuesCid c1) = true) :
    Superseded c1 t1 (run transport s es) := by
  induction es generalizing s with
  | nil => exact h
  | cons e rest ih =>
      rw [List.all_cons, Bool.and_eq_true] at hes
      have he : e.issuesCid c1 = false := by
        rcases hes with ⟨he1, _⟩
        simpa using he1
      exact ih (runEvent transport s e) (superseded_step transport c1 t1 s e h he) hes.2

/-- Issuing two cache-off debounced calls with the same effective key:
the second `DebounceManager.set` cancels the first call's timer and installs
its own, and both dispatch closures are parked. -/
theorem two_issues_eq (transport : Config → TResult) (s : SysState)
    (c1 c2 : Nat) (cfg1 cfg2 : Config) (i1 i2 : Interceptors)
    (hc1 : cfg1.cache = false) (hc2 : cfg2.cache = false)
    (hd1 : Request.debTruthy cfg1.debounce = true)
    (hd2 : Request.debTruthy cfg2.debounce = true)
    (hk : Request.effKey cfg2 = Request.effKey cfg1) :
    runEvent transport (runEvent transport s (.issue c1 cfg1 i1)) (.issue c2 cfg2 i2) =
      { s with timers := DebounceManager.set (Request.effKey cfg1) (s.nextTid + 1)
                 (DebounceManager.set (Request.effKey cfg1) s.nextTid s.timers)
               pending := ⟨s.nextTid + 1, c2, i2, cfg2, Request.effKey cfg2⟩ ::
                 ⟨s.nextTid, c1, i1, cfg1, Request.effKey cfg1⟩ :: s.pending
               nextTid := s.nextTid + 2 } := by
  have h1 : runEvent transport s (.issue c1 cfg1 i1) =
      { s with timers := DebounceManager.set (Request.effKey cfg1) s.nextTid s.timers
               pending := ⟨s.nextTid, c1, i1, cfg1, Request.effKey cfg1⟩ :: s.pending
               nextTid := s.nextTid + 1 } := by
    simp [runEvent, request_debounce_path transport i1 cfg1 s.cache hc1 hd1]
  rw [h1]
  simp [runEvent, request_debounce_path transport i2 cfg2 _ hc2 hd2, hk]

/-- After two same-key debounced calls, the first call is superseded: its
timer was cancelled by the second call's `DebounceManager.set` and it can
never dispatch or settle. -/
theorem superseded_after_two_issues (transport : Config → TResult) (s : SysState)
    (c1 c2 : Nat) (cfg1 cfg2 : Config) (i1 i2 : Interceptors)
    (hb : TidBound s)
    (hpend0 : ∀ q ∈ s.pending, q.cid ≠ c1)
    (hdisp0 : c1 ∉ s.dispatched)
    (hset0 : ∀ o, (c1, o) ∉ s.settled)
    (hc1 : cfg1.cache = false) (hc2 : cfg2.cache = false)
    (hd1 : Request.debTruthy cfg1.debounce = true)
    (hd2 : Request.debTruthy cfg2.debounce = true)
    (hk : Request.effKey cfg2 = Request.effKey cfg1)
    (hne : c2 ≠ c1) :
    Superseded c1 s.nextTid
      (runEvent transport (runEvent transport s (.issue c1 cfg1 i1)) (.issue c2 cfg2 i2)) := by
  obtain ⟨hbt, hbp, hbf⟩ := hb
  rw [two_issues_eq transport s c1 c2 cfg1 cfg2 i1 i2 hc1 hc2 hd1 hd2 hk]
  refine ⟨⟨?_, ?_, ?_⟩, ?_, ?_, ?_, hdisp0, hset0⟩ <;> dsimp only
  · intro p hp
    simp only [DebounceManager.set, DebounceManager.clear] at hp
    rcases List.mem_cons.mp hp with hm | hm
    · simp [hm]
    · have hm2 := List.mem_of_mem_filter hm
      rcases List.mem_cons.mp hm2 with hm3 | hm3
      · simp [hm3]
      · have := hbt p (List.mem_of_mem_filter hm3)
        omega
  · intro q hq
    rcases List.mem_cons.mp hq with hm | hm
    · simp [hm]
    · rcases List.mem_cons.mp hm with hm2 | hm2
      · simp [hm2]
      · have := hbp q hm2
        omega
  · intro t ht
    have := hbf t ht
    omega
  · omega
  · intro k hk2
    simp only [DebounceManager.set, DebounceManager.clear] at hk2
    rcases List.mem_cons.mp hk2 with hm | hm
    · have : s.nextTid = s.nextTid + 1 := congrArg Prod.snd hm
      omega
    · have hm2 := List.mem_of_mem_filter hm
      rcases List.mem_cons.mp hm2 with hm3 | hm3
      · have hne2 : (k, s.nextTid).1 ≠ Request.effKey cfg1 := by
          have := List.mem_filter.mp hm |>.2
          simpa using this
        have : (k, s.nextTid).1 = Request.effKey cfg1 := congrArg Prod.fst hm3
        exact hne2 this
      · have := hbt (k, s.nextTid) (List.mem_of_mem_filter hm3)
        omega
  · intro q hq hq1
    rcases List.mem_cons.mp hq with hm | hm
    · rw [hm] at hq1
      exact absurd hq1 hne
    · rcases List.mem_cons.mp hm with hm2 | hm2
      · rw [hm2]
      · exact absurd hq1 (hpend0 q hm2)

/-- C2: (a) `DebounceManager.set` leaves exactly one timer — the new one —
under the written key, and keeps the table's keys duplicate-free; (b) after
two same-key debounced calls, the first call's timer is gone from the
table, (c) the first call's dispatch never runs along any continuation of
the trace, while (d) the second call's dispatch runs when its timer fires:
last-call-wins. -/
theorem debounce_last_call_wins (transport : Config → TResult) (s : SysState)
    (c1 c2 : Nat) (cfg1 cfg2 : Config) (i1 i2 : Interceptors) (es : List Event)
    (hb : TidBound s)
    (hpend0 : ∀ q ∈ s.pending, q.cid ≠ c1)
    (hdisp0 : c1 ∉ s.dispatched)
    (hset0 : ∀ o, (c1, o) ∉ s.settled)
    (hc1 : cfg1.cache = false) (hc2 : cfg2.cache = false)
    (hd1 : Request.debTruthy cfg1.debounce = true)
    (hd2 : Request.debTruthy cfg2.debounce = true)
    (hk : Request.effKey cfg2 = Request.effKey cfg1)
    (hne : c2 ≠ c1)
    (hes : es.all (fun e => !e.issuesCid c1) = true) :
    (∀ (m : TimerTable) (k : String) (t t' : Nat),
       ((k, t') ∈ DebounceManager.set k t m ↔ t' = t)) ∧
    (∀ (m : TimerTable) (k : String) (t : Nat),
       (m.map Prod.fst).Nodup → ((DebounceManager.set k t m).map Prod.fst).Nodup) ∧
    (∀ k : String, (k, s.nextTid) ∉
       (runEvent transport (runEvent transport s (.issue c1 cfg1 i1))
         (.issue c2 cfg2 i2)).timers) ∧
    c1 ∉ (run transport
      (runEvent transport (runEvent transport s (.issue c1 cfg1 i1)) (.issue c2 cfg2 i2))
      es).dispatched ∧
    c2 ∈ (runEvent transport
      (runEvent transport (runEvent transport s (.issue c1 cfg1 i1)) (.issue c2 cfg2 i2))
      (.fire (s.nextTid + 1))).dispatched := by
  have hsup := superseded_after_two_issues transport s c1 c2 cfg1 cfg2 i1 i2
    ⟨hb.1, hb.2.1, hb.2.2⟩ hpend0 hdisp0 hset0 hc1 hc2 hd1 hd2 hk hne
  refine ⟨?_, ?_, hsup.t1dead, (superseded_run transport c1 s.nextTid _ es hsup hes).notDispatched, ?_⟩
  · intro m k t t'
    simp [DebounceManager.set, DebounceManager.clear, List.mem_filter]
  · intro m k t hm
    simp only [DebounceManager.set, DebounceManager.clear, List.map_cons]
    refine List.nodup_cons.mpr ⟨?_, ?_⟩
    · intro hmem
      rcases List.mem_map.mp hmem with ⟨p, hp, hp2⟩
      have h2 : p.1 ≠ k := by simpa using (List.mem_filter.mp hp).2
      exact h2 hp2
    · exact List.Nodup.sublist (List.Sublist.map Prod.fst (List.filter_sublist m)) hm
  · rw [two_issues_eq transport s c1 c2 cfg1 cfg2 i1 i2 hc1 hc2 hd1 hd2 hk]
    have hfired : ((s.nextTid + 1) ∈ s.fired) = False := by
      simp only [eq_iff_iff, iff_false]
      intro hmem
      have := hb.2.2 _ hmem
      omega
    have halive : timerAlive (s.nextTid + 1)
        { s with timers := DebounceManager.set (Request.effKey cfg1) (s.nextTid + 1)
                   (DebounceManager.set (Request.effKey cfg1) s.nextTid s.timers)
                 pending := ⟨s.nextTid + 1, c2, i2, cfg2, Request.effKey cfg2⟩ ::
                   ⟨s.nextTid, c1, i1, cfg1, Request.effKey cfg1⟩ :: s.pending
                 nextTid := s.nextTid + 2 } = true := by
      simp [timerAlive, DebounceManager.set, List.elem_iff, hfired]
    simp [runEvent, halive, List.find?]

/-- C7: a debounced call superseded by a later same-key call before its
timer fires never settles — no continuation of the trace ever records a
resolution or rejection for its promise. -/
theorem debounce_superseded_never_settles (transport : Config → TResult) (s : SysState)
    (c1 c2 : Nat) (cfg1 cfg2 : Config) (i1 i2 : Interceptors) (es : List Event)
    (hb : TidBound s)
    (hpend0 : ∀ q ∈ s.pending, q.cid ≠ c1)
    (hdisp0 : c1 ∉ s.dispatched)
    (hset0 : ∀ o, (c1, o) ∉ s.settled)
    (hc1 : cfg1.cache = false) (hc2 : cfg2.cache = false)
    (hd1 : Request.debTruthy cfg1.debounce = true)
    (hd2 : Request.debTruthy cfg2.debounce = true)
    (hk : Request.effKey cfg2 = Request.effKey cfg1)
    (hne : c2 ≠ c1)
    (hes : es.all (fun e => !e.issuesCid c1) = true) :
    ∀ o : SettleOut, (c1, o) ∉ (run transport
      (runEvent transport (runEvent transport s (.issue c1 cfg1 i1)) (.issue c2 cfg2 i2))
      es).settled :=
  (superseded_run transport c1 s.nextTid _ es
    (superseded_after_two_issues transport s c1 c2 cfg1 cfg2 i1 i2
      hb hpend0 hdisp0 hset0 hc1 hc2 hd1 hd2 hk hne) hes).notSettled

/-- Witness for C2 at two concrete same-key debounced calls from the
initial state. -/
theorem debounce_last_call_wins_witness :
    (("k", 7) ∈ DebounceManager.set "k" 7 [("k", 3)] ↔ 7 = 7) ∧
    ((DebounceManager.set "k" 7 [("k", 3)]).map Prod.fst).Nodup ∧
    ("k", 0) ∉ (runEvent (fun _ => TResult.success .null)
      (runEvent (fun _ => TResult.success .null) initState
        (.issue 0 { cacheKey := some "k", debounce := some 300 } {}))
      (.issue 1 { cacheKey := some "k", debounce := some 300 } {})).timers ∧
    0 ∉ (run (fun _ => TResult.success .null)
      (runEvent (fun _ => TResult.success .null)
        (runEvent (fun _ => TResult.success .null) initState
          (.issue 0 { cacheKey := some "k", debounce := some 300 } {}))
        (.issue 1 { cacheKey := some "k", debounce := some 300 } {}))
      [Event.fire 0]).dispatched ∧
    1 ∈ (runEvent (fun _ => TResult.success .null)
      (runEvent (fun _ => TResult.success .null)
        (runEvent (fun _ => TResult.success .null) initState
          (.issue 0 { cacheKey := some "k", debounce := some 300 } {}))
        (.issue 1 { cacheKey := some "k", debounce := some 300 } {}))
      (.fire 1)).dispatched := by
  have h := debounce_last_call_wins (fun _ => TResult.success .null) initState 0 1
    { cacheKey := some "k", debounce := some 300 }
    { cacheKey := some "k", debounce := some 300 }
    {} {} [Event.fire 0] tidBound_init (by simp [initState]) (by simp [initState])
    (by simp [initState]) rfl rfl (by decide) (by decide) rfl (by decide) rfl
  exact ⟨h.1 [("k", 3)] "k" 7 7, h.2.1 [("k", 3)] "k" 7 (by simp),
    h.2.2.1 "k", h.2.2.2.1, h.2.2.2.2⟩

/-- Witness for C7: even firing the superseded call's (cancelled) timer
settles nothing for it. -/
theorem debounce_superseded_never_settles_witness :
    (0, SettleOut.resolved .null) ∉ (run (fun _ => TResult.success .null)
      (runEvent (fun _ => TResult.success .null)
        (runEvent (fun _ => TResult.success .null) initState
          (.issue 0 { cacheKey := some "k", debounce := some 300 } {}))
        (.issue 1 { cacheKey := some "k", debounce := some 300 } {}))
      [Event.fire 0]).settled :=
  debounce_superseded_never_settles (fun _ => TResult.success .null) initState 0 1
    { cacheKey := some "k", debounce := some 300 }
    { cacheKey := some "k", debounce := some 300 }
    {} {} [Event.fire 0] tidBound_init (by simp [initState]) (by simp [initState])
    (by simp [initState]) rfl rfl (by decide) (by decide) rfl (by decide) rfl
    (SettleOut.resolved .null)

/-- Every branch of the transport phase marks the transport as invoked. -/
theorem transportPhase_transportInvoked (transport : Config → TResult)
    (icpt : Interceptors) (config c' : Config) (key : String) (cache : Cache)
    (b : Bool) :
    (Request.transportPhase transport icpt config c' key cache b).transportInvoked = true := by
  unfold Request.transportPhase
  repeat' (split <;> try rfl)

/-- C8: `clearCache(key)` removes exactly that key's entry, leaving every
other key's lookup unchanged; `clearCache()` with no key empties the cache,
after which a cache-enabled (undebounced) call dispatches and invokes the
transport again. -/
theorem clearCache_spec :
    (∀ (k k' : String) (c : Cache),
       CacheManager.lookup k' (Request.clearCache (some k) c) =
         if k' = k then none else CacheManager.lookup k' c) ∧
    (∀ c : Cache, Request.clearCache none c = []) ∧
    (∀ (transport : Config → TResult) (icpt : Interceptors) (config : Config)
       (cache : Cache) (c' : Config),
       config.cache = true → Request.debTruthy config.debounce = false →
       Request.processedConfig? icpt config = some c' →
       ∃ ct, Request.request transport icpt config (Request.clearCache none cache) =
           .settledNow ct ∧ ct.transportInvoked = true) := by
  refine ⟨?_, fun c => rfl, ?_⟩
  · intro k k' c
    simpa [Request.clearCache, CacheManager.delete] using lookup_filter_ne k k' c
  · intro transport icpt config cache c' hc hd hpass
    refine ⟨Request.sendRequest transport icpt config (Request.effKey config) [], ?_, ?_⟩
    · simp [Request.request, Request.clearCache, CacheManager.clear, CacheManager.lookup, hd]
    · obtain ⟨b, hb⟩ := sendRequest_eq_transportPhase transport icpt config
        (Request.effKey config) [] c' hpass
      rw [hb]
      exact transportPhase_transportInvoked transport icpt config c'
        (Request.effKey config) [] b

/-- Witness for C8 at a concrete two-entry cache and a concrete re-issued
cached call. -/
theorem clearCache_spec_witness :
    CacheManager.lookup "a" (Request.clearCache (some "k") [("k", .num 1), ("a", .num 2)]) =
      (if "a" = "k" then none else CacheManager.lookup "a" [("k", .num 1), ("a", .num 2)]) ∧
    Request.clearCache none [("k", .num 1)] = [] ∧
    (∃ ct, Request.request (fun _ => TResult.success (.str "again")) {}
        { cache := true, cacheKey := some "k" } (Request.clearCache none [("k", .str "v")]) =
        .settledNow ct ∧ ct.transportInvoked = true) :=
  ⟨clearCache_spec.1 "k" "a" _, clearCache_spec.2.1 _,
   clearCache_spec.2.2 (fun _ => TResult.success (.str "again")) {}
     { cache := true, cacheKey := some "k" } [("k", .str "v")]
     { cache := true, cacheKey := some "k" } rfl rfl rfl⟩
